import Mathlib

/-!
Verification of the input-manager device-added path of wlroots-rs
(`src/manager/input_manager.rs`): the `add_notify` dispatch entry point,
the `add_keyboard` keymap-initialization helper, and the
`InputManagerHandler` trait defaults.

The embedding is trace-based: each run of the device-added sequence
produces a list of observable events (environment reads, xkb resource
acquisition/release, keymap application, acceptance calls into user code,
`wl_signal_add` subscriptions, publication of the bound wrapper into the
device's `data` slot, and the generic `input_added` notification).
External, driver-level outcomes that the Rust code merely branches on
(whether `compositor_handle()` yields a handle, whether the kind-specific
conversion `*::new_from_input_device` succeeds, whether `xkb_context_new`
and `xkb_keymap_new_from_names` return non-null) are inputs to the model.
User-supplied handler code is modelled by its per-invocation result:
`Except.error ()` stands for a panic raised inside the user callback.
-/

/-- The five input-device kinds of `wlr_input_device_type` matched in
`add_notify` (`WLR_INPUT_DEVICE_KEYBOARD`, `_POINTER`, `_TOUCH`,
`_TABLET_TOOL`, `_TABLET_PAD`). -/
inductive DeviceKind
  | keyboard
  | pointer
  | touch
  | tabletTool
  | tabletPad
deriving DecidableEq, Repr

/-- Modelled from the spec: the decoding of a raw `wlr_input_device_type`
value (`InputDevice::dev_type`, defined outside the manager module) into
the closed five-kind enumeration. The spec fixes a closed enumeration of
exactly five kinds and declares every other raw value a fatal contract
violation; the concrete numbering 0..4 follows the declaration order of
the wlroots enum. -/
def classify (raw : Nat) : Option DeviceKind :=
  if raw = 0 then some DeviceKind.keyboard
  else if raw = 1 then some DeviceKind.pointer
  else if raw = 2 then some DeviceKind.touch
  else if raw = 3 then some DeviceKind.tabletTool
  else if raw = 4 then some DeviceKind.tabletPad
  else none

/-- The raw enumeration value of each device kind (inverse of `classify`
on valid values). -/
def kindRaw : DeviceKind → Nat
  | DeviceKind.keyboard => 0
  | DeviceKind.pointer => 1
  | DeviceKind.touch => 2
  | DeviceKind.tabletTool => 3
  | DeviceKind.tabletPad => 4

/-- The event channels subscribed via `wl_signal_add` in `add_notify`,
one constructor per signal field accessed in the source (keyboard
`events.key/modifiers/keymap/repeat_info`, pointer
`events.motion/motion_absolute/button/axis`, touch
`events.down/up/motion/cancel`, tablet-tool
`events.axis/proximity/tip/button`, tablet-pad
`events.button/ring/strip`, and the device-level `events.destroy`). -/
inductive Channel
  | kbKey
  | kbModifiers
  | kbKeymap
  | kbRepeatInfo
  | ptrMotion
  | ptrMotionAbsolute
  | ptrButton
  | ptrAxis
  | touchDown
  | touchUp
  | touchMotion
  | touchCancel
  | toolAxis
  | toolProximity
  | toolTip
  | toolButton
  | padButton
  | padRing
  | padStrip
  | destroy
deriving DecidableEq, Repr

/-- The `xkb_rule_names` structure built in `add_keyboard` from the five
environment values. -/
structure XkbRuleNames where
  rules : String
  model : String
  layout : String
  variant : String
  options : String
deriving DecidableEq, Repr

/-- Observable events of one run of the device-added sequence. -/
inductive Event
  /-- `env::var(name)` was read in `add_keyboard`. -/
  | envRead (name : String)
  /-- `xkb_context_new` returned a (non-null) context. -/
  | xkbContextNew
  /-- `xkb_keymap_new_from_names` compiled a keymap from these names. -/
  | xkbKeymapCompiled (names : XkbRuleNames)
  /-- `wlr_keyboard_set_keymap` applied the compiled keymap. -/
  | setKeymap
  /-- `xkb_keymap_unref` released the compiled keymap. -/
  | xkbKeymapUnref
  /-- `xkb_context_unref` released the compilation context. -/
  | xkbContextUnref
  /-- `wlr_keyboard_set_repeat_info(dev, rate, delay)` was applied. -/
  | setRepeatInfo (rate : Int) (delay : Int)
  /-- The kind-specific `*_added` acceptance operation was invoked on the
  user's manager. -/
  | acceptance (k : DeviceKind)
  /-- `wl_signal_add` subscribed channel `c`. -/
  | signalAdd (c : Channel)
  /-- `(*data).data = Box::into_raw(wrapper)`: the bound wrapper was
  published as the device's opaque per-device state. -/
  | publish (k : DeviceKind)
  /-- The generic `input_added` notification was invoked on the user's
  manager. -/
  | inputAdded
deriving DecidableEq, Repr

/-- The channels of the `signalAdd` events of a trace, in order. -/
def signalChannels (t : List Event) : List Channel :=
  t.filterMap fun e =>
    match e with
    | Event.signalAdd c => some c
    | _ => none

/-- The environment-variable names read by a trace, in order. -/
def envReadsOf (t : List Event) : List String :=
  t.filterMap fun e =>
    match e with
    | Event.envRead n => some n
    | _ => none

/-- The five environment reads performed by `add_keyboard`, in source
order. -/
def envReadEvents : List Event :=
  [Event.envRead ("XKB_DEFAULT_RULES"), Event.envRead ("XKB_DEFAULT_MODEL"),
   Event.envRead ("XKB_DEFAULT_LAYOUT"), Event.envRead ("XKB_DEFAULT_VARIANT"),
   Event.envRead ("XKB_DEFAULT_OPTIONS")]

/-- The `xkb_rule_names` value `add_keyboard` builds:
`env::var("XKB_DEFAULT_…").unwrap_or("".into())` for each of the five
fields. -/
def addKeyboardRuleNames (env : String → Option String) : XkbRuleNames :=
  { rules := (env ("XKB_DEFAULT_RULES")).getD ""
    model := (env ("XKB_DEFAULT_MODEL")).getD ""
    layout := (env ("XKB_DEFAULT_LAYOUT")).getD ""
    variant := (env ("XKB_DEFAULT_VARIANT")).getD ""
    options := (env ("XKB_DEFAULT_OPTIONS")).getD "" }

/-- Shallow embedding of `add_keyboard`. `ctxOk` is whether
`xkb_context_new` returns non-null, `compileOk` whether
`xkb_keymap_new_from_names` returns non-null for the given names (both
external library calls). Result: `Except.ok t` is normal return with
trace `t`; `Except.error t` is a `panic!` raised after trace `t`
(`"Failed to create XKB context"` resp. `"Could not create xkb map"`). -/
def add_keyboard (env : String → Option String) (ctxOk : Bool)
    (compileOk : XkbRuleNames → Bool) : Except (List Event) (List Event) :=
  let names := addKeyboardRuleNames env
  if !ctxOk then
    Except.error envReadEvents
  else if !(compileOk names) then
    Except.error (envReadEvents ++ [Event.xkbContextNew])
  else
    Except.ok (envReadEvents ++
      [Event.xkbContextNew, Event.xkbKeymapCompiled names, Event.setKeymap,
       Event.xkbKeymapUnref, Event.xkbContextUnref, Event.setRepeatInfo 25 600])

/-- The per-invocation behaviour of the user's `InputManagerHandler`
trait object. Each field is the result of invoking the corresponding
method during this device-added event: `Except.error ()` models a panic
raised inside the user's code, `Except.ok (some h)` acceptance with a
handler (opaquely numbered), `Except.ok none` decline. -/
structure Manager where
  keyboard_added : Except Unit (Option Nat)
  pointer_added : Except Unit (Option Nat)
  touch_added : Except Unit (Option Nat)
  tablet_tool_added : Except Unit (Option Nat)
  tablet_pad_added : Except Unit (Option Nat)
  input_added : Except Unit Unit
deriving Repr

/-- The default method bodies of the `InputManagerHandler` trait: every
kind-specific `*_added` returns `None`, and `input_added` has an empty
body; none of them can panic. -/
def defaultManager : Manager :=
  { keyboard_added := Except.ok none
    pointer_added := Except.ok none
    touch_added := Except.ok none
    tablet_tool_added := Except.ok none
    tablet_pad_added := Except.ok none
    input_added := Except.ok () }

/-- The acceptance operation `add_notify` invokes for each device kind. -/
def kindAccept (m : Manager) : DeviceKind → Except Unit (Option Nat)
  | DeviceKind.keyboard => m.keyboard_added
  | DeviceKind.pointer => m.pointer_added
  | DeviceKind.touch => m.touch_added
  | DeviceKind.tabletTool => m.tablet_tool_added
  | DeviceKind.tabletPad => m.tablet_pad_added

/-- Result of running the closure passed to `panic::catch_unwind` inside
`add_notify`: normal completion, a panic that unwinds to the
`catch_unwind` boundary, or a direct `abort()` raised inside the closure
(conversion failure or unrecognized kind) — `abort` terminates the
process at once and never unwinds. Each constructor carries the trace of
events that happened before the run ended. -/
inductive SeqResult
  | ok (t : List Event)
  | panicked (t : List Event)
  | abortedNow (t : List Event)
deriving DecidableEq, Repr

/-- The trace of events a sequence run produced, whatever its outcome. -/
def traceOf : SeqResult → List Event
  | SeqResult.ok t => t
  | SeqResult.panicked t => t
  | SeqResult.abortedNow t => t

/-- The trace of events an `add_keyboard` run produced, whether it
returned normally or panicked. -/
def traceOfKb : Except (List Event) (List Event) → List Event
  | Except.ok t => t
  | Except.error t => t

/-- The tail of every run of the closure in `add_notify`: invoke the
generic `input_added` notification on the user's manager. -/
def finishInputAdded (m : Manager) (t : List Event) : SeqResult :=
  match m.input_added with
  | Except.error _ => SeqResult.panicked (t ++ [Event.inputAdded])
  | Except.ok _ => SeqResult.ok (t ++ [Event.inputAdded])

/-- Inputs of one `add_notify` invocation: whether `compositor_handle()`
yields a handle, the raw device kind, whether the kind-specific
`*::new_from_input_device` conversion succeeds, the process environment
and xkb-library outcomes consumed by `add_keyboard`, and the user's
manager behaviour. -/
structure AddNotifyInput where
  compositorAvailable : Bool
  rawKind : Nat
  convOk : Bool
  env : String → Option String
  ctxOk : Bool
  compileOk : XkbRuleNames → Bool
  mgr : Manager

/-- Shallow embedding of the closure wrapped in `panic::catch_unwind`
inside `add_notify`: classify the device; for keyboards first run
`add_keyboard`; convert the device (`abort()` on failure); call the
kind-specific acceptance operation; if a handler is returned, subscribe
the kind's signals then `destroy` via `wl_signal_add` and publish the
wrapper into `(*data).data`; finally invoke the generic `input_added`
notification. -/
def deviceSeq (inp : AddNotifyInput) : SeqResult :=
  match classify inp.rawKind with
  | none => SeqResult.abortedNow []
  | some DeviceKind.keyboard =>
    match add_keyboard inp.env inp.ctxOk inp.compileOk with
    | Except.error t => SeqResult.panicked t
    | Except.ok t =>
      if !inp.convOk then SeqResult.abortedNow t
      else
        match inp.mgr.keyboard_added with
        | Except.error _ => SeqResult.panicked (t ++ [Event.acceptance DeviceKind.keyboard])
        | Except.ok none =>
          finishInputAdded inp.mgr (t ++ [Event.acceptance DeviceKind.keyboard])
        | Except.ok (some _) =>
          finishInputAdded inp.mgr (t ++ [Event.acceptance DeviceKind.keyboard] ++
            [Event.signalAdd Channel.kbKey, Event.signalAdd Channel.kbModifiers,
             Event.signalAdd Channel.kbKeymap, Event.signalAdd Channel.kbRepeatInfo,
             Event.signalAdd Channel.destroy, Event.publish DeviceKind.keyboard])
  | some DeviceKind.pointer =>
    if !inp.convOk then SeqResult.abortedNow []
    else
      match inp.mgr.pointer_added with
      | Except.error _ => SeqResult.panicked [Event.acceptance DeviceKind.pointer]
      | Except.ok none => finishInputAdded inp.mgr [Event.acceptance DeviceKind.pointer]
      | Except.ok (some _) =>
        finishInputAdded inp.mgr ([Event.acceptance DeviceKind.pointer] ++
          [Event.signalAdd Channel.ptrMotion, Event.signalAdd Channel.ptrMotionAbsolute,
           Event.signalAdd Channel.ptrButton, Event.signalAdd Channel.ptrAxis,
           Event.signalAdd Channel.destroy, Event.publish DeviceKind.pointer])
  | some DeviceKind.touch =>
    if !inp.convOk then SeqResult.abortedNow []
    else
      match inp.mgr.touch_added with
      | Except.error _ => SeqResult.panicked [Event.acceptance DeviceKind.touch]
      | Except.ok none => finishInputAdded inp.mgr [Event.acceptance DeviceKind.touch]
      | Except.ok (some _) =>
        finishInputAdded inp.mgr ([Event.acceptance DeviceKind.touch] ++
          [Event.signalAdd Channel.touchDown, Event.signalAdd Channel.touchUp,
           Event.signalAdd Channel.touchMotion, Event.signalAdd Channel.touchCancel,
           Event.signalAdd Channel.destroy, Event.publish DeviceKind.touch])
  | some DeviceKind.tabletTool =>
    if !inp.convOk then SeqResult.abortedNow []
    else
      match inp.mgr.tablet_tool_added with
      | Except.error _ => SeqResult.panicked [Event.acceptance DeviceKind.tabletTool]
      | Except.ok none => finishInputAdded inp.mgr [Event.acceptance DeviceKind.tabletTool]
      | Except.ok (some _) =>
        finishInputAdded inp.mgr ([Event.acceptance DeviceKind.tabletTool] ++
          [Event.signalAdd Channel.toolAxis, Event.signalAdd Channel.toolProximity,
           Event.signalAdd Channel.toolTip, Event.signalAdd Channel.toolButton,
           Event.signalAdd Channel.destroy, Event.publish DeviceKind.tabletTool])
  | some DeviceKind.tabletPad =>
    if !inp.convOk then SeqResult.abortedNow []
    else
      match inp.mgr.tablet_pad_added with
      | Except.error _ => SeqResult.panicked [Event.acceptance DeviceKind.tabletPad]
      | Except.ok none => finishInputAdded inp.mgr [Event.acceptance DeviceKind.tabletPad]
      | Except.ok (some _) =>
        finishInputAdded inp.mgr ([Event.acceptance DeviceKind.tabletPad] ++
          [Event.signalAdd Channel.padButton, Event.signalAdd Channel.padRing,
           Event.signalAdd Channel.padStrip,
           Event.signalAdd Channel.destroy, Event.publish DeviceKind.tabletPad])

/-- The two ways an `add_notify` invocation can end as seen from the
external event loop: a normal return, or process termination via
`abort()`. Each carries the trace of events that happened. -/
inductive Outcome
  | returned (t : List Event)
  | aborted (t : List Event)
deriving DecidableEq, Repr

/-- Shallow embedding of the `add_notify` listener: bail out (plain
return) when `compositor_handle()` yields no handle; otherwise run the
device-added sequence under `panic::catch_unwind` and turn an `Err`
(caught panic) into `abort()`. An `abort()` raised inside the sequence
terminates the process directly. -/
def add_notify (inp : AddNotifyInput) : Outcome :=
  if !inp.compositorAvailable then Outcome.returned []
  else
    match deviceSeq inp with
    | SeqResult.ok t => Outcome.returned t
    | SeqResult.panicked t => Outcome.aborted t
    | SeqResult.abortedNow t => Outcome.aborted t

/-- The per-kind channel sets exactly as the spec lists them (§4.5),
stated independently of the code for comparison with the `signalAdd`
events the code emits. -/
def specChannels : DeviceKind → List Channel
  | DeviceKind.keyboard => [Channel.kbKey, Channel.kbModifiers, Channel.kbKeymap, Channel.kbRepeatInfo]
  | DeviceKind.pointer => [Channel.ptrMotion, Channel.ptrMotionAbsolute, Channel.ptrButton, Channel.ptrAxis]
  | DeviceKind.touch => [Channel.touchDown, Channel.touchUp, Channel.touchMotion, Channel.touchCancel]
  | DeviceKind.tabletTool => [Channel.toolAxis, Channel.toolProximity, Channel.toolTip, Channel.toolButton]
  | DeviceKind.tabletPad => [Channel.padButton, Channel.padRing, Channel.padStrip]

/-- Modelled from the spec: the external xkb keymap compiler
(`xkb_keymap_new_from_names`, not part of this repository). The spec
guarantees only that compilation succeeds when all five rule-name fields
are the empty string; this model succeeds exactly there. -/
def specXkbCompileOk (names : XkbRuleNames) : Bool :=
  names.rules = "" && names.model = "" && names.layout = "" &&
  names.variant = "" && names.options = ""

/-- The trace `add_keyboard` emits up to and including its normal
return, given the rule names it derived from the environment. -/
def kbSetupTrace (names : XkbRuleNames) : List Event :=
  envReadEvents ++
    [Event.xkbContextNew, Event.xkbKeymapCompiled names, Event.setKeymap,
     Event.xkbKeymapUnref, Event.xkbContextUnref, Event.setRepeatInfo 25 600]

/-- A concrete invocation: keyboard device, empty environment, healthy
xkb library, user manager left at the trait defaults (declines). -/
def kbDeclineInput : AddNotifyInput :=
  { compositorAvailable := true, rawKind := 0, convOk := true,
    env := fun _ => none, ctxOk := true, compileOk := fun _ => true,
    mgr := defaultManager }

/-- A concrete invocation: pointer device whose acceptance operation
returns a handler. -/
def pointerAcceptInput : AddNotifyInput :=
  { compositorAvailable := true, rawKind := 1, convOk := true,
    env := fun _ => none, ctxOk := true, compileOk := fun _ => true,
    mgr := { defaultManager with pointer_added := Except.ok (some 0) } }

/-! ### Helper lemmas -/

/-- A normally-returning `add_keyboard` run produces exactly the
source-order trace: the five environment reads, context creation, keymap
compilation from the derived names, keymap application, the two releases,
and the repeat-info application. -/
theorem add_keyboard_ok_trace (env : String → Option String) (ctxOk : Bool)
    (compileOk : XkbRuleNames → Bool) (t : List Event)
    (h : add_keyboard env ctxOk compileOk = Except.ok t) :
    t = envReadEvents ++
      [Event.xkbContextNew, Event.xkbKeymapCompiled (addKeyboardRuleNames env),
       Event.setKeymap, Event.xkbKeymapUnref, Event.xkbContextUnref,
       Event.setRepeatInfo 25 600] := by
  cases ctxOk with
  | false => simp [add_keyboard] at h
  | true =>
    cases hcm : compileOk (addKeyboardRuleNames env) with
    | false => simp [add_keyboard, hcm] at h
    | true =>
      simp [add_keyboard, hcm] at h
      exact h.symm

/-- The trace of `finishInputAdded` extends its input with the
`input_added` notification, whether the user's hook returns or panics. -/
theorem finishInputAdded_trace (m : Manager) (pre : List Event) :
    traceOf (finishInputAdded m pre) = pre ++ [Event.inputAdded] := by
  cases h : m.input_added <;> simp [finishInputAdded, h, traceOf]

/-- A normally-returning `finishInputAdded` run yields its input trace
followed by the `input_added` notification. -/
theorem finishInputAdded_ok_trace (m : Manager) (pre t : List Event)
    (h : finishInputAdded m pre = SeqResult.ok t) :
    t = pre ++ [Event.inputAdded] := by
  cases hia : m.input_added <;> simp [finishInputAdded, hia] at h
  exact h.symm

/-! ### Claims -/

/-- C10: if no compositor handle is available when the device-added
notification fires, `add_notify` returns immediately with an empty trace:
no classification, no keymap setup, no acceptance operation, no generic
input-added notification, and no abort. -/
theorem add_notify_no_compositor (inp : AddNotifyInput)
    (h : inp.compositorAvailable = false) :
    add_notify inp = Outcome.returned [] := by
  simp [add_notify, h]

theorem add_notify_no_compositor_witness :
    add_notify { compositorAvailable := false, rawKind := 0, convOk := true,
                 env := fun _ => none, ctxOk := true, compileOk := fun _ => true,
                 mgr := defaultManager } = Outcome.returned [] :=
  add_notify_no_compositor _ rfl

/-- C1: a panic raised anywhere inside the wrapped device-added sequence
(keymap setup, acceptance call, binding, or the generic input-added
notification, including user handler code) is caught at the
`catch_unwind` boundary and converted to immediate process termination:
the invocation ends in `abort`, and neither a panic nor a recoverable
error is propagated back to the external event loop. -/
theorem add_notify_panic_aborts (inp : AddNotifyInput) (t : List Event)
    (hc : inp.compositorAvailable = true)
    (hp : deviceSeq inp = SeqResult.panicked t) :
    add_notify inp = Outcome.aborted t := by
  simp [add_notify, hc, hp]

theorem add_notify_panic_aborts_witness :
    add_notify { compositorAvailable := true, rawKind := 1, convOk := true,
                 env := fun _ => none, ctxOk := true, compileOk := fun _ => true,
                 mgr := { defaultManager with pointer_added := Except.error () } } =
      Outcome.aborted [Event.acceptance DeviceKind.pointer] :=
  add_notify_panic_aborts _ _ rfl rfl

/-- C9: for every device kind, the default `InputManagerHandler`
implementation of the kind's acceptance operation declines the device by
returning `None` and never raises a fault. -/
theorem default_acceptance_declines (k : DeviceKind) :
    kindAccept defaultManager k = Except.ok none := by
  cases k <;> rfl

/-- Every normally-completing run of the device-added sequence ends its
trace with exactly one `input_added` notification, as the last event. -/
theorem deviceSeq_ok_shape (inp : AddNotifyInput) (t : List Event)
    (h : deviceSeq inp = SeqResult.ok t) :
    ∃ pre, t = pre ++ [Event.inputAdded] ∧ Event.inputAdded ∉ pre := by
  unfold deviceSeq at h
  split at h
  · simp at h
  · -- keyboard
    split at h
    · simp at h
    · rename_i tkb hkb
      split at h
      · simp at h
      · split at h
        · simp at h
        · have htkb := add_keyboard_ok_trace _ _ _ _ hkb
          subst htkb
          refine ⟨_, finishInputAdded_ok_trace _ _ _ h, ?_⟩
          simp [envReadEvents]
        · have htkb := add_keyboard_ok_trace _ _ _ _ hkb
          subst htkb
          refine ⟨_, finishInputAdded_ok_trace _ _ _ h, ?_⟩
          simp [envReadEvents]
  · -- pointer
    split at h
    · simp at h
    · split at h
      · simp at h
      · exact ⟨_, finishInputAdded_ok_trace _ _ _ h, by simp⟩
      · exact ⟨_, finishInputAdded_ok_trace _ _ _ h, by simp⟩
  · -- touch
    split at h
    · simp at h
    · split at h
      · simp at h
      · exact ⟨_, finishInputAdded_ok_trace _ _ _ h, by simp⟩
      · exact ⟨_, finishInputAdded_ok_trace _ _ _ h, by simp⟩
  · -- tablet tool
    split at h
    · simp at h
    · split at h
      · simp at h
      · exact ⟨_, finishInputAdded_ok_trace _ _ _ h, by simp⟩
      · exact ⟨_, finishInputAdded_ok_trace _ _ _ h, by simp⟩
  · -- tablet pad
    split at h
    · simp at h
    · split at h
      · simp at h
      · exact ⟨_, finishInputAdded_ok_trace _ _ _ h, by simp⟩
      · exact ⟨_, finishInputAdded_ok_trace _ _ _ h, by simp⟩

/-- C4: device classification is total and exhaustive over the five
kinds — every valid raw kind value maps to exactly its own enumeration
value — and for any raw kind value outside the five known kinds,
`add_notify` terminates the process with an empty trace: before any
acceptance operation or generic notification is invoked. -/
theorem classify_total_unknown_aborts :
    (∀ k : DeviceKind, classify (kindRaw k) = some k) ∧
    (∀ raw : Nat, 5 ≤ raw → classify raw = none) ∧
    (∀ inp : AddNotifyInput, inp.compositorAvailable = true →
      classify inp.rawKind = none → add_notify inp = Outcome.aborted []) := by
  refine ⟨fun k => by cases k <;> rfl, fun raw h5 => ?_, fun inp hc hn => ?_⟩
  · have h0 : ¬ raw = 0 := by omega
    have h1 : ¬ raw = 1 := by omega
    have h2 : ¬ raw = 2 := by omega
    have h3 : ¬ raw = 3 := by omega
    have h4 : ¬ raw = 4 := by omega
    simp [classify, h0, h1, h2, h3, h4]
  · simp [add_notify, hc, deviceSeq, hn]

theorem classify_total_unknown_aborts_witness :
    classify (kindRaw DeviceKind.touch) = some DeviceKind.touch ∧
    classify 7 = none ∧
    add_notify { compositorAvailable := true, rawKind := 7, convOk := true,
                 env := fun _ => none, ctxOk := true, compileOk := fun _ => true,
                 mgr := defaultManager } = Outcome.aborted [] :=
  ⟨classify_total_unknown_aborts.1 DeviceKind.touch,
   classify_total_unknown_aborts.2.1 7 (by omega),
   classify_total_unknown_aborts.2.2 _ rfl rfl⟩

/-- C5: every `add_notify` invocation that runs the device-added
sequence and completes normally has the generic `input_added`
notification as the final event of its trace: it fires exactly once,
after all kind-specific handling, never before. -/
theorem input_added_fires_last (inp : AddNotifyInput) (t : List Event)
    (hc : inp.compositorAvailable = true)
    (hr : add_notify inp = Outcome.returned t) :
    ∃ pre, t = pre ++ [Event.inputAdded] ∧ Event.inputAdded ∉ pre := by
  unfold add_notify at hr
  rw [hc] at hr
  simp only [Bool.not_true] at hr
  cases hd : deviceSeq inp with
  | ok t0 =>
    rw [hd] at hr
    simp only [Bool.false_eq_true, if_false, Outcome.returned.injEq] at hr
    subst hr
    exact deviceSeq_ok_shape inp t0 hd
  | panicked t0 => rw [hd] at hr; simp at hr
  | abortedNow t0 => rw [hd] at hr; simp at hr

theorem input_added_fires_last_witness :
    ∃ pre, [Event.acceptance DeviceKind.touch, Event.inputAdded] =
      pre ++ [Event.inputAdded] ∧ Event.inputAdded ∉ pre :=
  input_added_fires_last
    { compositorAvailable := true, rawKind := 2, convOk := true,
      env := fun _ => none, ctxOk := true, compileOk := fun _ => true,
      mgr := defaultManager } _ rfl rfl

/-- C7: keymap initialization reads exactly the five `XKB_DEFAULT_*`
environment variables, in source order; each of the five rule-name
fields independently defaults to the empty string when its variable is
unset; and with all five unset, keymap construction succeeds on the
all-empty rule names (success of the external compiler on empty names is
modelled from the spec as `specXkbCompileOk`). -/
theorem add_keyboard_env_five_defaults :
    (∀ (env : String → Option String) (ctxOk : Bool) (compileOk : XkbRuleNames → Bool),
      envReadsOf (traceOfKb (add_keyboard env ctxOk compileOk)) =
        ["XKB_DEFAULT_RULES", "XKB_DEFAULT_MODEL", "XKB_DEFAULT_LAYOUT",
         "XKB_DEFAULT_VARIANT", "XKB_DEFAULT_OPTIONS"]) ∧
    (∀ env : String → Option String,
      (env ("XKB_DEFAULT_RULES") = none → (addKeyboardRuleNames env).rules = "") ∧
      (env ("XKB_DEFAULT_MODEL") = none → (addKeyboardRuleNames env).model = "") ∧
      (env ("XKB_DEFAULT_LAYOUT") = none → (addKeyboardRuleNames env).layout = "") ∧
      (env ("XKB_DEFAULT_VARIANT") = none → (addKeyboardRuleNames env).variant = "") ∧
      (env ("XKB_DEFAULT_OPTIONS") = none → (addKeyboardRuleNames env).options = "")) ∧
    add_keyboard (fun _ => none) true specXkbCompileOk =
      Except.ok (envReadEvents ++
        [Event.xkbContextNew, Event.xkbKeymapCompiled ⟨"", "", "", "", ""⟩,
         Event.setKeymap, Event.xkbKeymapUnref, Event.xkbContextUnref,
         Event.setRepeatInfo 25 600]) := by
  refine ⟨fun env c k => ?_, fun env => ?_, ?_⟩
  · cases c with
    | false => simp [add_keyboard, traceOfKb, envReadsOf, envReadEvents]
    | true =>
      cases hk : k (addKeyboardRuleNames env) with
      | false => simp [add_keyboard, hk, traceOfKb, envReadsOf, envReadEvents]
      | true => simp [add_keyboard, hk, traceOfKb, envReadsOf, envReadEvents]
  · refine ⟨fun h => ?_, fun h => ?_, fun h => ?_, fun h => ?_, fun h => ?_⟩ <;>
      simp [addKeyboardRuleNames, h]
  · rfl

theorem add_keyboard_env_five_defaults_witness :
    envReadsOf (traceOfKb (add_keyboard (fun _ => none) true specXkbCompileOk)) =
      ["XKB_DEFAULT_RULES", "XKB_DEFAULT_MODEL", "XKB_DEFAULT_LAYOUT",
       "XKB_DEFAULT_VARIANT", "XKB_DEFAULT_OPTIONS"] ∧
    (addKeyboardRuleNames (fun _ => none)).layout = "" :=
  ⟨add_keyboard_env_five_defaults.1 (fun _ => none) true specXkbCompileOk,
   (add_keyboard_env_five_defaults.2.1 (fun _ => none)).2.2.1 rfl⟩

/-- C6: for every keyboard device-added event that reaches the
acceptance call (device converts, xkb context and compilation succeed),
keymap initialization runs exactly once — `wlr_keyboard_set_keymap` and
the repeat-info application each appear exactly once, before the
acceptance operation and regardless of its result — and every
repeat-info application in the trace carries rate 25 and delay 600. -/
theorem keyboard_keymap_once_before_acceptance (inp : AddNotifyInput)
    (hk : classify inp.rawKind = some DeviceKind.keyboard)
    (hctx : inp.ctxOk = true)
    (hcmp : inp.compileOk (addKeyboardRuleNames inp.env) = true)
    (hcv : inp.convOk = true) :
    ∃ t1 t2,
      traceOf (deviceSeq inp) = t1 ++ Event.acceptance DeviceKind.keyboard :: t2 ∧
      t1.count Event.setKeymap = 1 ∧
      t1.count (Event.setRepeatInfo 25 600) = 1 ∧
      Event.setKeymap ∉ t2 ∧
      (∀ r d : Int, Event.setRepeatInfo r d ∉ t2) ∧
      (∀ r d : Int, Event.setRepeatInfo r d ∈ t1 → r = 25 ∧ d = 600) := by
  have hkb : add_keyboard inp.env inp.ctxOk inp.compileOk =
      Except.ok (kbSetupTrace (addKeyboardRuleNames inp.env)) := by
    simp [add_keyboard, kbSetupTrace, hctx, hcmp]
  have ht1a : (kbSetupTrace (addKeyboardRuleNames inp.env)).count Event.setKeymap = 1 := by
    simp [kbSetupTrace, envReadEvents, List.count_append, List.count_cons]
  have ht1b : (kbSetupTrace (addKeyboardRuleNames inp.env)).count
      (Event.setRepeatInfo 25 600) = 1 := by
    simp [kbSetupTrace, envReadEvents, List.count_append, List.count_cons]
  have ht1c : ∀ r d : Int,
      Event.setRepeatInfo r d ∈ kbSetupTrace (addKeyboardRuleNames inp.env) →
      r = 25 ∧ d = 600 := by
    intro r d h
    simp [kbSetupTrace, envReadEvents] at h
    exact h
  cases hacc : inp.mgr.keyboard_added with
  | error e =>
    refine ⟨kbSetupTrace (addKeyboardRuleNames inp.env), [], ?_, ht1a, ht1b,
      by simp, by simp, ht1c⟩
    simp [deviceSeq, hk, hkb, hcv, hacc, traceOf, kbSetupTrace]
  | ok o =>
    cases o with
    | none =>
      refine ⟨kbSetupTrace (addKeyboardRuleNames inp.env), [Event.inputAdded], ?_,
        ht1a, ht1b, by simp, by simp, ht1c⟩
      simp [deviceSeq, hk, hkb, hcv, hacc, finishInputAdded_trace, kbSetupTrace]
    | some hId =>
      refine ⟨kbSetupTrace (addKeyboardRuleNames inp.env),
        [Event.signalAdd Channel.kbKey, Event.signalAdd Channel.kbModifiers,
         Event.signalAdd Channel.kbKeymap, Event.signalAdd Channel.kbRepeatInfo,
         Event.signalAdd Channel.destroy, Event.publish DeviceKind.keyboard,
         Event.inputAdded], ?_, ht1a, ht1b, by simp, by simp, ht1c⟩
      simp [deviceSeq, hk, hkb, hcv, hacc, finishInputAdded_trace, kbSetupTrace]

theorem keyboard_keymap_once_before_acceptance_witness :
    ∃ t1 t2,
      traceOf (deviceSeq kbDeclineInput) = t1 ++ Event.acceptance DeviceKind.keyboard :: t2 ∧
      t1.count Event.setKeymap = 1 ∧
      t1.count (Event.setRepeatInfo 25 600) = 1 ∧
      Event.setKeymap ∉ t2 ∧
      (∀ r d : Int, Event.setRepeatInfo r d ∉ t2) ∧
      (∀ r d : Int, Event.setRepeatInfo r d ∈ t1 → r = 25 ∧ d = 600) :=
  keyboard_keymap_once_before_acceptance kbDeclineInput rfl rfl rfl rfl

/-- C2: for every device whose kind-specific acceptance operation
returns a handler, the `signalAdd` subscriptions installed are exactly
the spec's fixed channel set for that kind (§4.5) with the `destroy`
channel last, and the bound wrapper is published into the device's
per-device state slot immediately after — hence only after — all
subscriptions are installed. -/
theorem accepted_subscriptions_exact (inp : AddNotifyInput) (k : DeviceKind) (hId : Nat)
    (hk : classify inp.rawKind = some k)
    (hcv : inp.convOk = true)
    (hkbk : k = DeviceKind.keyboard → inp.ctxOk = true ∧
            inp.compileOk (addKeyboardRuleNames inp.env) = true)
    (hacc : kindAccept inp.mgr k = Except.ok (some hId)) :
    ∃ pre post,
      traceOf (deviceSeq inp) =
        pre ++ ((specChannels k).map Event.signalAdd ++
          [Event.signalAdd Channel.destroy, Event.publish k]) ++ post ∧
      signalChannels pre = [] ∧ signalChannels post = [] ∧
      (∀ k', Event.publish k' ∉ pre) ∧ (∀ k', Event.publish k' ∉ post) := by
  cases k with
  | keyboard =>
    obtain ⟨hctx, hcmp⟩ := hkbk rfl
    have hkb : add_keyboard inp.env inp.ctxOk inp.compileOk =
        Except.ok (kbSetupTrace (addKeyboardRuleNames inp.env)) := by
      simp [add_keyboard, kbSetupTrace, hctx, hcmp]
    simp only [kindAccept] at hacc
    refine ⟨kbSetupTrace (addKeyboardRuleNames inp.env) ++
      [Event.acceptance DeviceKind.keyboard], [Event.inputAdded], ?_, ?_, ?_, ?_, ?_⟩
    · simp [deviceSeq, hk, hkb, hcv, hacc, finishInputAdded_trace, specChannels, kbSetupTrace]
    · simp [signalChannels, kbSetupTrace, envReadEvents]
    · simp [signalChannels]
    · intro k'; simp [kbSetupTrace, envReadEvents]
    · intro k'; simp
  | pointer =>
    simp only [kindAccept] at hacc
    refine ⟨[Event.acceptance DeviceKind.pointer], [Event.inputAdded], ?_, ?_, ?_, ?_, ?_⟩
    · simp [deviceSeq, hk, hcv, hacc, finishInputAdded_trace, specChannels]
    · simp [signalChannels]
    · simp [signalChannels]
    · intro k'; simp
    · intro k'; simp
  | touch =>
    simp only [kindAccept] at hacc
    refine ⟨[Event.acceptance DeviceKind.touch], [Event.inputAdded], ?_, ?_, ?_, ?_, ?_⟩
    · simp [deviceSeq, hk, hcv, hacc, finishInputAdded_trace, specChannels]
    · simp [signalChannels]
    · simp [signalChannels]
    · intro k'; simp
    · intro k'; simp
  | tabletTool =>
    simp only [kindAccept] at hacc
    refine ⟨[Event.acceptance DeviceKind.tabletTool], [Event.inputAdded], ?_, ?_, ?_, ?_, ?_⟩
    · simp [deviceSeq, hk, hcv, hacc, finishInputAdded_trace, specChannels]
    · simp [signalChannels]
    · simp [signalChannels]
    · intro k'; simp
    · intro k'; simp
  | tabletPad =>
    simp only [kindAccept] at hacc
    refine ⟨[Event.acceptance DeviceKind.tabletPad], [Event.inputAdded], ?_, ?_, ?_, ?_, ?_⟩
    · simp [deviceSeq, hk, hcv, hacc, finishInputAdded_trace, specChannels]
    · simp [signalChannels]
    · simp [signalChannels]
    · intro k'; simp
    · intro k'; simp

theorem accepted_subscriptions_exact_witness :
    ∃ pre post,
      traceOf (deviceSeq pointerAcceptInput) =
        pre ++ ((specChannels DeviceKind.pointer).map Event.signalAdd ++
          [Event.signalAdd Channel.destroy, Event.publish DeviceKind.pointer]) ++ post ∧
      signalChannels pre = [] ∧ signalChannels post = [] ∧
      (∀ k', Event.publish k' ∉ pre) ∧ (∀ k', Event.publish k' ∉ post) :=
  accepted_subscriptions_exact pointerAcceptInput DeviceKind.pointer 0 rfl rfl
    (fun h => nomatch h) rfl

/-- C3: for every device whose acceptance operation declines (returns
`None`), the device-added sequence completes normally — decline is not
treated as an error — with no `signalAdd` subscription installed and no
wrapper published into the device's per-device state slot. -/
theorem declined_no_subscriptions (inp : AddNotifyInput) (k : DeviceKind)
    (hk : classify inp.rawKind = some k)
    (hcv : inp.convOk = true)
    (hkbk : k = DeviceKind.keyboard → inp.ctxOk = true ∧
            inp.compileOk (addKeyboardRuleNames inp.env) = true)
    (hacc : kindAccept inp.mgr k = Except.ok none)
    (hia : inp.mgr.input_added = Except.ok ()) :
    ∃ t, deviceSeq inp = SeqResult.ok t ∧ signalChannels t = [] ∧
      ∀ k', Event.publish k' ∉ t := by
  cases k with
  | keyboard =>
    obtain ⟨hctx, hcmp⟩ := hkbk rfl
    have hkb : add_keyboard inp.env inp.ctxOk inp.compileOk =
        Except.ok (kbSetupTrace (addKeyboardRuleNames inp.env)) := by
      simp [add_keyboard, kbSetupTrace, hctx, hcmp]
    simp only [kindAccept] at hacc
    refine ⟨kbSetupTrace (addKeyboardRuleNames inp.env) ++
      [Event.acceptance DeviceKind.keyboard] ++ [Event.inputAdded], ?_, ?_, ?_⟩
    · simp [deviceSeq, hk, hkb, hcv, hacc, finishInputAdded, hia, kbSetupTrace]
    · simp [signalChannels, kbSetupTrace, envReadEvents]
    · intro k'; simp [kbSetupTrace, envReadEvents]
  | pointer =>
    simp only [kindAccept] at hacc
    refine ⟨[Event.acceptance DeviceKind.pointer] ++ [Event.inputAdded], ?_, ?_, ?_⟩
    · simp [deviceSeq, hk, hcv, hacc, finishInputAdded, hia]
    · simp [signalChannels]
    · intro k'; simp
  | touch =>
    simp only [kindAccept] at hacc
    refine ⟨[Event.acceptance DeviceKind.touch] ++ [Event.inputAdded], ?_, ?_, ?_⟩
    · simp [deviceSeq, hk, hcv, hacc, finishInputAdded, hia]
    · simp [signalChannels]
    · intro k'; simp
  | tabletTool =>
    simp only [kindAccept] at hacc
    refine ⟨[Event.acceptance DeviceKind.tabletTool] ++ [Event.inputAdded], ?_, ?_, ?_⟩
    · simp [deviceSeq, hk, hcv, hacc, finishInputAdded, hia]
    · simp [signalChannels]
    · intro k'; simp
  | tabletPad =>
    simp only [kindAccept] at hacc
    refine ⟨[Event.acceptance DeviceKind.tabletPad] ++ [Event.inputAdded], ?_, ?_, ?_⟩
    · simp [deviceSeq, hk, hcv, hacc, finishInputAdded, hia]
    · simp [signalChannels]
    · intro k'; simp

theorem declined_no_subscriptions_witness :
    ∃ t, deviceSeq kbDeclineInput = SeqResult.ok t ∧ signalChannels t = [] ∧
      ∀ k', Event.publish k' ∉ t :=
  declined_no_subscriptions kbDeclineInput DeviceKind.keyboard rfl rfl
    (fun _ => ⟨rfl, rfl⟩) rfl rfl

/-- C8 counterexample: when keymap compilation fails after the context
was created (`xkb_keymap_new_from_names` returns null), `add_keyboard`
panics with the context still held: its trace records the context
acquisition but neither `xkb_context_unref` nor `xkb_keymap_unref`, so
the claim that both scoped resources are released on every path,
including failure paths, is false. -/
theorem add_keyboard_compile_failure_keeps_context :
    add_keyboard (fun _ => none) true (fun _ => false) =
      Except.error (envReadEvents ++ [Event.xkbContextNew]) ∧
    Event.xkbContextNew ∈ traceOfKb (add_keyboard (fun _ => none) true (fun _ => false)) ∧
    Event.xkbContextUnref ∉ traceOfKb (add_keyboard (fun _ => none) true (fun _ => false)) ∧
    Event.xkbKeymapUnref ∉ traceOfKb (add_keyboard (fun _ => none) true (fun _ => false)) := by
  refine ⟨rfl, ?_, ?_, ?_⟩ <;> simp [add_keyboard, traceOfKb, envReadEvents]

/-- C8 (amended): on every path on which keymap initialization returns
normally, both the compiled keymap and the compilation context are
released (`xkb_keymap_unref`, `xkb_context_unref`) before the step
returns; on the failure path where keymap compilation fails, the step
instead panics with the context unreleased and the process aborts. -/
theorem add_keyboard_releases_on_return (env : String → Option String)
    (ctxOk : Bool) (compileOk : XkbRuleNames → Bool) (t : List Event)
    (h : add_keyboard env ctxOk compileOk = Except.ok t) :
    Event.xkbKeymapUnref ∈ t ∧ Event.xkbContextUnref ∈ t := by
  rw [add_keyboard_ok_trace env ctxOk compileOk t h]
  constructor <;> simp [envReadEvents]

theorem add_keyboard_releases_on_return_witness :
    Event.xkbKeymapUnref ∈ envReadEvents ++
      [Event.xkbContextNew, Event.xkbKeymapCompiled (addKeyboardRuleNames (fun _ => none)),
       Event.setKeymap, Event.xkbKeymapUnref, Event.xkbContextUnref,
       Event.setRepeatInfo 25 600] ∧
    Event.xkbContextUnref ∈ envReadEvents ++
      [Event.xkbContextNew, Event.xkbKeymapCompiled (addKeyboardRuleNames (fun _ => none)),
       Event.setKeymap, Event.xkbKeymapUnref, Event.xkbContextUnref,
       Event.setRepeatInfo 25 600] :=
  add_keyboard_releases_on_return (fun _ => none) true (fun _ => true) _ rfl
